import Mathlib

/-!
Verification of the report generation & delivery pipeline of the
Finance-arrayobject-api repository (src/routers/ppt_email.py,
src/routers/array_converter.py, src/app.py).

The Python code is shallowly embedded: Python `str` is modelled as Lean
`String` (a list of Unicode code points, matching Python's code-point
strings); Python dicts are modelled as association lists in insertion
order; fallible code returns `Except`; the two network collaborators
(identity endpoint, email gateway) are modelled as explicit response
values handed to the embedded functions, together with counters of how
many network calls were performed.

Whitespace predicates model Python's `str.strip()` / regex `\s` on the
ASCII range (space, tab, newline, carriage return, vertical tab, form
feed), which covers every input appearing in the claims.
-/

deriving instance DecidableEq for Except

namespace PPTEmail

/-- Python whitespace test (`str.isspace` / regex `\s`) on the ASCII range. -/
def pyIsSpace (c : Char) : Bool :=
  c = ' ' || c = '\t' || c = '\n' || c = '\r' || c = '\x0b' || c = '\x0c'

/-- Strip characters satisfying `p` from both ends of a character list
(Python `str.strip(chars)` generalised). -/
def pyStripWith (p : Char → Bool) (l : List Char) : List Char :=
  ((l.dropWhile p).reverse.dropWhile p).reverse

/-- Python `str.strip()` on a character list. -/
def pyStripL (l : List Char) : List Char :=
  pyStripWith pyIsSpace l

/-- Python `str.strip()` on a string. -/
def pyStrip (s : String) : String :=
  ⟨pyStripL s.data⟩

/-- Python `str.strip(chars)`: remove any character of `cs` from both ends. -/
def pyStripChars (cs : List Char) (l : List Char) : List Char :=
  pyStripWith (fun c => cs.contains c) l

/-- Python `s.startswith(pre)`. -/
def pyStartswith (s pre : String) : Bool :=
  pre.data.isPrefixOf s.data

/-- Python `x or d` for an optional string: `None` and `""` are falsy. -/
def pyOrStr (x : Option String) (d : String) : String :=
  match x with
  | none => d
  | some s => if s = "" then d else s

/-- ASCII decimal digit (regex `\d` on the inputs of interest). -/
def isDigitCh (c : Char) : Bool :=
  '0' ≤ c && c ≤ '9'

/-- Space or tab (regex character class `[ \t]`). -/
def isSpTab (c : Char) : Bool :=
  c = ' ' || c = '\t'

/-- Model of `re.sub(r"[ \t]+", " ", s)`: each maximal run of spaces/tabs
becomes a single space. -/
def squeezeSpaces : List Char → List Char
  | [] => []
  | [c] => if isSpTab c then [' '] else [c]
  | c :: d :: rest =>
    if isSpTab c && isSpTab d then squeezeSpaces (d :: rest)
    else (if isSpTab c then ' ' else c) :: squeezeSpaces (d :: rest)

/-- One maximal whitespace run `W` under `re.sub(r"\n\s*\n+", "\n", s)`:
if `W` holds at least two newlines, the stretch from its first to its last
newline is replaced by a single newline (surrounding non-newline
whitespace of the run survives); otherwise `W` is unchanged. -/
def blankTransform (W : List Char) : List Char :=
  if 2 ≤ W.count '\n' then
    W.takeWhile (fun c => c ≠ '\n') ++ '\n' :: (W.reverse.takeWhile (fun c => c ≠ '\n')).reverse
  else W

/-- Scanner for `re.sub(r"\n\s*\n+", "\n", s)`: whitespace is buffered
(in reverse) and flushed through `blankTransform` at each non-whitespace
character and at the end. -/
def collapseBlankAux (buf : List Char) : List Char → List Char
  | [] => blankTransform buf.reverse
  | c :: rest =>
    if pyIsSpace c then collapseBlankAux (c :: buf) rest
    else blankTransform buf.reverse ++ c :: collapseBlankAux [] rest

/-- Model of `re.sub(r"\n\s*\n+", "\n", s)`. -/
def collapseBlank (l : List Char) : List Char :=
  collapseBlankAux [] l

/-- Does a numbered-list marker `\d+\.\s` start at the head of the list? -/
def markerAtHead (l : List Char) : Bool :=
  let ds := l.takeWhile isDigitCh
  !ds.isEmpty &&
    (match l.drop ds.length with
     | '.' :: c :: _ => pyIsSpace c
     | _ => false)

/-- Scanner deciding `re.findall(r"(?:^|\s)(\d+)\.\s", clean) ≠ []`:
is there a marker at the start of the text or right after a whitespace
character?  `prevSp` records whether the previous position allows a
marker (true initially, for `^`). -/
def hasMarkerAux : Bool → List Char → Bool
  | _, [] => false
  | prevSp, c :: rest =>
    (prevSp && markerAtHead (c :: rest)) || hasMarkerAux (pyIsSpace c) rest

/-- Is there a numbered-list marker `(?:^|\s)\d+\.\s` anywhere? -/
def hasMarker (l : List Char) : Bool :=
  hasMarkerAux true l

/-- Scanner for `re.split(r"(?:^|\s)(?=\d+\.\s)", clean)`: a whitespace
character directly followed by a marker is consumed and splits the text.
`cur` is the current part, in reverse. -/
def splitMarkersAux (cur : List Char) : List Char → List (List Char)
  | [] => [cur.reverse]
  | c :: rest =>
    if pyIsSpace c && markerAtHead rest then cur.reverse :: splitMarkersAux [] rest
    else splitMarkersAux (c :: cur) rest

/-- Model of `re.split(r"(?:^|\s)(?=\d+\.\s)", clean)`; a marker at
position 0 produces a zero-width split (leading empty part), as Python
does. -/
def splitMarkers (l : List Char) : List (List Char) :=
  if markerAtHead l then [] :: splitMarkersAux [] l
  else splitMarkersAux [] l

/-- Model of `re.sub(r"^\d+\.\s*", "", part)`: remove leading digits, a
dot, and any (possibly zero) whitespace after them. -/
def stripNumDot (l : List Char) : List Char :=
  let ds := l.takeWhile isDigitCh
  if ds.isEmpty then l
  else
    match l.drop ds.length with
    | '.' :: rest => rest.dropWhile pyIsSpace
    | _ => l

/-- The loop of the numbered branch of `_parse_summary`:
`part.strip()`, skip if empty, strip the `\d+\.\s*` head, strip again,
keep if non-empty. -/
def numberedLoop : List (List Char) → List (List Char)
  | [] => []
  | p :: ps =>
    let p1 := pyStripL p
    if p1.isEmpty then numberedLoop ps
    else
      let p2 := pyStripL (stripNumDot p1)
      if p2.isEmpty then numberedLoop ps else p2 :: numberedLoop ps

/-- Python `clean.split("\n")` (no collapsing of separators). -/
def splitOnNlAux (cur : List Char) : List Char → List (List Char)
  | [] => [cur.reverse]
  | c :: rest =>
    if c = '\n' then cur.reverse :: splitOnNlAux [] rest
    else splitOnNlAux (c :: cur) rest

/-- Python `clean.split("\n")`. -/
def splitOnNl (l : List Char) : List (List Char) :=
  splitOnNlAux [] l

/-- The exact strip set of `b.strip("-â€¢ ")` in the source: the dash, the
three mojibake characters that were meant to be the bullet glyph `•`, and
the space.  Note `•` itself is NOT in the set. -/
def glyphStripSet : List Char :=
  ['-', 'â', '€', '¢', ' ']

/-- Sentence-terminal punctuation of `(?<=[.!?])`. -/
def isTermPunct (c : Char) : Bool :=
  c = '.' || c = '!' || c = '?'

/-- Scanner for `re.split(r"(?<=[.!?])\s+", clean)`: a whitespace run
directly after terminal punctuation is consumed and splits the text.
`skipping` is true while consuming such a run; `prev` is the previous
character of the original text (a space initially: position 0 has no
preceding character, so the lookbehind cannot match there). -/
def sentSplitAux : Bool → Char → List Char → List Char → List (List Char)
  | _, _, cur, [] => [cur.reverse]
  | skipping, prev, cur, c :: rest =>
    if skipping && pyIsSpace c then sentSplitAux true c cur rest
    else if pyIsSpace c && isTermPunct prev then cur.reverse :: sentSplitAux true c [] rest
    else sentSplitAux false c (c :: cur) rest

/-- Model of `re.split(r"(?<=[.!?])\s+", clean)`. -/
def sentSplit (l : List Char) : List (List Char) :=
  sentSplitAux false ' ' [] l

/-- The whitespace-normalisation pipeline of `_parse_summary` applied to
the already-stripped non-blank text: collapse space/tab runs, collapse
blank lines, strip. -/
def cleanOf (s : String) : List Char :=
  pyStripL (collapseBlank (squeezeSpaces (pyStripL s.data)))

/-- The sentinel bullet list. -/
def noSummary : List String :=
  ["No summary provided"]

/-- Shallow embedding of `_parse_summary` (src/routers/ppt_email.py,
lines 405-436).  The argument is optional to model `summary or ""` on a
`None`-equivalent input. -/
def parseSummary (summary : Option String) : List String :=
  let clean0 := pyStripL (summary.getD "").data
  if clean0.isEmpty then noSummary
  else
    let clean := pyStripL (collapseBlank (squeezeSpaces clean0))
    let bullets :=
      if hasMarker clean then numberedLoop (splitMarkers clean)
      else if clean.contains '\n' then
        ((splitOnNl clean).filter (fun b => !(pyStripL b).isEmpty)).map
          (fun b => pyStripL (pyStripChars glyphStripSet b))
      else
        ((sentSplit clean).filter (fun b => !(pyStripL b).isEmpty)).map pyStripL
    if bullets.isEmpty then noSummary else bullets.map (fun l => String.mk l)

/-- A data row of the request: a Python dict from column name to value,
modelled as an association list in insertion order with distinct keys
(the code applies `str()` to every value before use, so values are
modelled as strings). -/
abbrev Row := List (String × String)

/-- Python `row_data.get(key, "")` followed by `str(...)`. -/
def rowGet (row : Row) (key : String) : String :=
  ((row.find? (fun p => p.1 = key)).map Prod.snd).getD ""

/-- The styling attributes the code sets on one table cell: text, bold
flag, explicit font colour (RGB) and explicit fill colour (RGB), `none`
meaning the attribute is left at its default. -/
structure TableCell where
  text : String
  bold : Bool
  fontColor : Option (Nat × Nat × Nat)
  fillColor : Option (Nat × Nat × Nat)
  deriving DecidableEq

/-- The slide kinds produced by `create_pptx_buffer`, carrying the
content the claims are about. -/
inductive Slide
  | title (text : String)
  | bulletSlide (heading : String) (items : List String)
  | tableSlide (heading : String) (rows : List (List TableCell))
  | closing (text : String)
  deriving DecidableEq

/-- A header cell: bold white text on the dark fill RGB(0, 51, 102). -/
def headerCell (key : String) : TableCell :=
  { text := key
    bold := true
    fontColor := some (255, 255, 255)
    fillColor := some (0, 51, 102) }

/-- A data cell for row `rowIdx` (starting at 1): the value is looked up
with default `""`; the font turns red exactly when the value stripped of
surrounding whitespace starts with `-`; even row indices get the light
zebra fill RGB(242, 242, 242). -/
def dataCell (rowIdx : Nat) (row : Row) (key : String) : TableCell :=
  let v := rowGet row key
  { text := v
    bold := false
    fontColor := if pyStartswith (pyStrip v) "-" then some (255, 0, 0) else none
    fillColor := if rowIdx % 2 = 0 then some (242, 242, 242) else none }

/-- The table grid: one header row from the keys of row 0, then one row
of data cells per data row, enumerated from 1 as in the source. -/
def tableRows (keys : List String) (data : List Row) : List (List TableCell) :=
  (keys.map headerCell) :: (data.enumFrom 1).map (fun ir => keys.map (dataCell ir.1 ir.2))

/-- Shallow embedding of `create_pptx_buffer` (src/routers/ppt_email.py,
lines 183-402).  Slide 1 is the title, slide 2 the parsed summary
bullets, the table slide exists only when `data` is non-empty (Python
`if data:`), and the closing slide ends the deck.  When `data` is
non-empty the column schema is `data[0].keys()`; with zero columns the
line `col_width = table_width / num_cols` raises `ZeroDivisionError`,
modelled as `Except.error "division by zero"` (the exception aborts the
whole build, so no artifact is produced). -/
def create_pptx_buffer (business_name summary : String) (data : List Row) :
    Except String (List Slide) :=
  let s1 := Slide.title (business_name ++ " - Analysis")
  let s2 := Slide.bulletSlide "SUMMARY" (parseSummary (some summary))
  let s4 := Slide.closing "THANK YOU"
  match data with
  | [] => .ok [s1, s2, s4]
  | first :: _ =>
    let keys := first.map Prod.fst
    if keys.length = 0 then .error "division by zero"
    else .ok [s1, s2, Slide.tableSlide "DATA" (tableRows keys data), s4]

/-- The data-row cells of one slide (the rows of a table slide after the
header row); non-table slides have none. -/
def slideDataCells : Slide → List TableCell
  | .tableSlide _ rows => (rows.drop 1).flatten
  | _ => []

/-- All data-row table cells of a deck. -/
def deckTableDataCells (slides : List Slide) : List TableCell :=
  (slides.map slideDataCells).flatten

/-- Process-wide configuration read by `get_bearer_token`
(`CLIENT_ID`, `CLIENT_SECRET`, `SCOPE`). -/
structure TokenConfig where
  clientId : String
  clientSecret : String
  scope : String

/-- The identity endpoint's reply: HTTP status and the JSON body's
string fields. -/
structure HttpResponse where
  status : Nat
  json : List (String × String)

/-- Field lookup in a JSON body (Python `payload.get(key)`). -/
def jsonGet (r : HttpResponse) (key : String) : Option String :=
  (r.json.find? (fun p => p.1 = key)).map Prod.snd

/-- `requests.Response.raise_for_status`: raises exactly for status codes
400-599 (1xx, 2xx and 3xx responses pass). -/
def raise_for_status (r : HttpResponse) : Except String Unit :=
  if 400 ≤ r.status ∧ r.status < 600 then .error ("HTTP error " ++ toString r.status)
  else .ok ()

/-- Shallow embedding of `get_bearer_token` (src/routers/ppt_email.py,
lines 91-123).  The three optional arguments default through Python
`or`, so `None` and `""` both fall back to the configured value.  The
second component counts network calls (the single `requests.post`); the
response that call would produce is passed in as `resp`.  The body's
`access_token` is rejected when missing or empty (`if not token`). -/
def get_bearer_token (cfg : TokenConfig) (client_id client_secret scope : Option String)
    (resp : HttpResponse) : Except String String × Nat :=
  let _cid := pyOrStr client_id cfg.clientId
  let cs := pyOrStr client_secret cfg.clientSecret
  let _sc := pyOrStr scope cfg.scope
  if cs = "" then (.error "CLIENT_SECRET not set", 0)
  else
    match raise_for_status resp with
    | .error e => (.error e, 1)
    | .ok _ =>
      match jsonGet resp "access_token" with
      | none => (.error "No access_token in response", 1)
      | some t => if t = "" then (.error "No access_token in response", 1) else (.ok t, 1)

/-- Outcomes of the two network collaborators of one pipeline run: what
`get_bearer_token` would produce, and what `send_email` would produce
(`.error` models a network-level exception, `.ok st` a gateway reply
with status `st`). -/
structure PipelineEnv where
  tokenResult : Except String String
  emailResult : Except String Nat

/-- How many times each external call was performed in one run. -/
structure PipelineTrace where
  tokenCalls : Nat
  emailCalls : Nat
  deriving DecidableEq

/-- Shallow embedding of the `generate_and_send` route handler
(src/routers/ppt_email.py, lines 454-546).  Step order is exactly the
source's: build the deck, then authenticate, then dispatch.  A failure
of `create_pptx_buffer` reaches the outer `except Exception` handler
(HTTP 500 with the exception text, zero network calls); a token failure
becomes HTTP 401 before any dispatch; a gateway status of 400 or more is
re-raised with the upstream status; a network-level dispatch failure
becomes HTTP 500.  On success the gateway status is echoed. -/
def generate_and_send (business_name summary : String) (data : List Row)
    (env : PipelineEnv) : Except (Nat × String) Nat × PipelineTrace :=
  match create_pptx_buffer business_name summary data with
  | .error msg => (.error (500, msg), ⟨0, 0⟩)
  | .ok _slides =>
    match env.tokenResult with
    | .error e => (.error (401, "Authentication failed: " ++ e), ⟨1, 0⟩)
    | .ok _token =>
      match env.emailResult with
      | .error e => (.error (500, "Email sending failed: " ++ e), ⟨1, 1⟩)
      | .ok st =>
        if 400 ≤ st then (.error (st, "Email service error"), ⟨1, 1⟩)
        else (.ok st, ⟨1, 1⟩)

/-- The office-document MIME overrides of the source. -/
def MIME_OVERRIDES : List (String × String) :=
  [(".xlsx", "application/vnd.openxmlformats-officedocument.spreadsheetml.sheet"),
   (".pptx", "application/vnd.openxmlformats-officedocument.presentationml.presentation"),
   (".docx", "application/vnd.openxmlformats-officedocument.wordprocessingml.document")]

/-- ASCII lower-casing of one character (Python `str.lower` restricted to
ASCII, which covers the extensions of interest). -/
def lowerCh (c : Char) : Char :=
  if 'A' ≤ c && c ≤ 'Z' then Char.ofNat (c.toNat + 32) else c

/-- Python `filename.lower()`. -/
def pyLower (s : String) : String :=
  ⟨s.data.map lowerCh⟩

/-- The extension part of `os.path.splitext` (posix rules): the part of
the basename from its last dot on, except that a basename whose every
character before that dot is a dot (e.g. `.bashrc`) has no extension. -/
def splitextExt (p : String) : String :=
  let base := (p.data.reverse.takeWhile (fun c => c ≠ '/')).reverse
  let afterDot := base.reverse.takeWhile (fun c => c ≠ '.')
  if afterDot.length = base.length then ""
  else
    let pre := base.take (base.length - afterDot.length - 1)
    if pre.any (fun c => c ≠ '.') then String.mk ('.' :: afterDot.reverse) else ""

/-- Shallow embedding of `guess_mime` (src/routers/ppt_email.py, lines
82-88).  `mimetypes.guess_type` (the stdlib extension table, an external
collaborator) is passed in as `guessType`; Python `mt or
"application/octet-stream"` makes `None` and `""` fall back. -/
def guess_mime (guessType : String → Option String) (filename : String) : String :=
  let ext := splitextExt (pyLower filename)
  match (MIME_OVERRIDES.find? (fun p => p.1 = ext)).map Prod.snd with
  | some m => m
  | none => pyOrStr (guessType filename) "application/octet-stream"

/-- Python dict insertion: an existing key keeps its position and takes
the new value, a new key is appended. -/
def dictInsert (d : List (String × α)) (k : String) (v : α) : List (String × α) :=
  if (d.map Prod.fst).contains k then
    d.map (fun p => if p.1 = k then (k, v) else p)
  else d ++ [(k, v)]

/-- Python `dict(pairs)`: left-to-right insertion. -/
def pyDict (ps : List (String × α)) : List (String × α) :=
  ps.foldl (fun d kv => dictInsert d kv.1 kv.2) []

/-- Dict lookup (`obj[k]` / JSON object field access). -/
def dictGet (d : List (String × α)) (k : String) : Option α :=
  (d.find? (fun p => p.1 = k)).map Prod.snd

/-- Shallow embedding of the `/convert` handler `convert_arrays`
(src/routers/array_converter.py lines 10-22 and src/app.py lines 10-32,
two identical copies).  `none` models a missing body field; Python
`if not header or not data` rejects missing and empty values with
status 400; otherwise each row becomes `dict(zip(header, row))`.  The
source's error message quotes the two field names in single quotes;
the quotes are elided here. -/
def convert_arrays (header : Option (List String)) (data : Option (List (List α))) :
    Except (Nat × String) (List (List (String × α))) :=
  let hdr := match header with | none => [] | some h => h
  let dat := match data with | none => [] | some d => d
  if hdr.isEmpty || dat.isEmpty then
    .error (400, "Both header and data are required.")
  else
    .ok (dat.map (fun row => pyDict (hdr.zip row)))

/-- Is an `Except` value a success? -/
def isOkE : Except ε α → Bool
  | .ok _ => true
  | .error _ => false

/-- Modelled from the spec (claim C3's reading): strip a literal leading
marker `N. ` — digits, a dot, and at least one whitespace character —
from a segment; a segment not starting with such a marker is unchanged.
Differs from the source's `re.sub(r"^\d+\.\s*", "", part)`, which also
strips `N.` when no whitespace follows the dot. -/
def stripMarkerClaim (l : List Char) : List Char :=
  let ds := l.takeWhile isDigitCh
  if ds.isEmpty then l
  else
    match l.drop ds.length with
    | '.' :: c :: rest => if pyIsSpace c then rest.dropWhile pyIsSpace else l
    | _ => l

/-- One segment of the claimed numbered-branch output: trim, discard if
empty, strip the literal `N. ` marker, trim, discard if empty. -/
def segBulletClaimC3 (p : List Char) : Option (List Char) :=
  let p1 := pyStripL p
  if p1.isEmpty then none
  else
    let p2 := pyStripL (stripMarkerClaim p1)
    if p2.isEmpty then none else some p2

/-- Modelled from the spec (claim C3 as stated): split the normalised
text at each numbered marker and strip the literal `N. ` from each
segment, discarding empty segments. -/
def parseSummaryClaimC3 (s : String) : List String :=
  ((splitMarkers (cleanOf s)).filterMap segBulletClaimC3).map String.mk

/-- One segment of the numbered branch as the code computes it
(`segBulletA p = some bullet` exactly when the loop keeps the segment). -/
def segBulletA (p : List Char) : Option (List Char) :=
  let p1 := pyStripL p
  if p1.isEmpty then none
  else
    let p2 := pyStripL (stripNumDot p1)
    if p2.isEmpty then none else some p2

/-- The numbered-branch output, stated independently of the loop: segments
between markers, each with its `\d+\.\s*` head removed and trimmed,
empty segments discarded, in text order. -/
def numberedBulletsA (t : List Char) : List String :=
  ((splitMarkers t).filterMap segBulletA).map String.mk

/-- Modelled from the spec (claim C8 as stated): a line's bullet is the
line with surrounding whitespace trimmed and then leading bullet glyphs
`-` and `•` removed (and a final trim). -/
def lineBulletClaimC8 (b : List Char) : List Char :=
  pyStripL ((pyStripL b).dropWhile (fun c => c = '-' || c = '•'))

/-- Modelled from the spec (claim C8 as stated): one bullet per
non-empty line of the normalised text. -/
def parseLinesClaimC8 (t : List Char) : List String :=
  (splitOnNl t).filterMap (fun b =>
    if (pyStripL b).isEmpty then none else some (String.mk (lineBulletClaimC8 b)))

/-- The line-branch output as the code computes it, stated independently
of the comprehension: one bullet per line whose trim is non-empty, with
the characters of `glyphStripSet` removed from both ends and a final
trim. -/
def lineBulletsA (t : List Char) : List String :=
  (splitOnNl t).filterMap (fun b =>
    if (pyStripL b).isEmpty then none
    else some (String.mk (pyStripL (pyStripChars glyphStripSet b))))

end PPTEmail

namespace PPTEmail

/-- C2: the spec guarantees every bullet returned by the summary parser
is non-empty, but on the input `"a\n-"` (a line holding only a dash) the
line branch filters on the line's plain trim and only then strips the
glyph characters, producing the empty bullet `""`.  This theorem
evaluates the parser at that failing input. -/
theorem parse_summary_produces_empty_bullet :
    parseSummary (some "a\n-") = ["a", ""] := by decide

/-- C4, counterexample: with empty rows the deck does NOT have 4 slides
(the claim's count); it has 3 (title, summary, closing — the table slide
is omitted). -/
theorem deck_empty_rows_not_four_slides :
    (create_pptx_buffer "Biz" "ok" []).map List.length ≠ .ok 4 := by decide

/-- C4, amended: with empty rows the table slide is omitted and the deck
has exactly 3 slides; with non-empty rows (row 0 having at least one
key) it has exactly 4 — one more, not one less. -/
theorem deck_slide_counts (b s : String) :
    (create_pptx_buffer b s []).map List.length = .ok 3 ∧
    ∀ kv r rest, (create_pptx_buffer b s ((kv :: r) :: rest)).map List.length = .ok 4 := by
  constructor
  · rfl
  · intro kv r rest
    simp only [create_pptx_buffer, List.map_cons, List.length_cons, Nat.succ_ne_zero, if_false]
    rfl

/-- C5: a non-empty rows list whose first row has zero keys makes the
pipeline fail while building the deck (the column-width division by the
zero column count), reported through the generic handler as HTTP 500,
with zero token calls and zero dispatch calls — so no network call is
made and no zero-column artifact is produced. -/
theorem pipeline_zero_column_rejected (b s : String) (rest : List Row) (env : PipelineEnv) :
    generate_and_send b s ([] :: rest) env = (.error (500, "division by zero"), ⟨0, 0⟩) := by
  simp [generate_and_send, create_pptx_buffer]

/-- C1, counterexample: the data cell rendering the value `" -5"` gets
the red font although its rendered string value starts with a space, not
with `-` — the code tests the whitespace-stripped value. -/
theorem table_cell_warning_not_literal :
    (create_pptx_buffer "B" "ok" [[("k", " -5")]]).map
        (fun sl => (deckTableDataCells sl).map (fun c => (c.text, c.fontColor))) =
      .ok [(" -5", some (255, 0, 0))] ∧
    pyStartswith " -5" "-" = false := by decide

/-- C1, amended: every data-row cell of a deck built by
`create_pptx_buffer` has the warning (red) font colour if and only if
its rendered string value, stripped of surrounding whitespace, starts
with `-` (still a literal string test, not numeric parsing; header cells
are styled white-on-dark separately). -/
theorem table_cell_warning_iff_stripped_dash (b s : String) (d : List Row)
    (slides : List Slide) (h : create_pptx_buffer b s d = .ok slides) :
    ∀ c ∈ deckTableDataCells slides,
      (c.fontColor = some (255, 0, 0) ↔ pyStartswith (pyStrip c.text) "-" = true) := by
  cases d with
  | nil =>
    simp only [create_pptx_buffer, Except.ok.injEq] at h
    subst h
    intro c hc
    simp [deckTableDataCells, slideDataCells] at hc
  | cons first rest =>
    simp only [create_pptx_buffer] at h
    by_cases hk : (first.map Prod.fst).length = 0
    · simp [hk] at h
    · simp only [hk, if_false, Except.ok.injEq] at h
      subst h
      intro c hc
      simp only [deckTableDataCells, slideDataCells, tableRows, List.map_cons, List.map_nil,
        List.flatten_cons, List.flatten_nil, List.append_nil, List.nil_append,
        List.drop_succ_cons, List.drop_zero, List.mem_append, List.mem_flatten,
        List.mem_map] at hc
      rcases hc with ⟨row, ⟨ir, _, rfl⟩, hcrow⟩
      rcases List.mem_map.mp hcrow with ⟨key, _, rfl⟩
      by_cases hneg : pyStartswith (pyStrip (rowGet ir.2 key)) "-" = true
      · simp [dataCell, hneg]
      · simp [dataCell, hneg]

/-- C1, witness: the amended theorem applied to a one-cell table holding
`"-5"`. -/
theorem table_cell_warning_iff_stripped_dash_witness :
    ((⟨"-5", false, some (255, 0, 0), none⟩ : TableCell).fontColor = some (255, 0, 0) ↔
      pyStartswith (pyStrip "-5") "-" = true) :=
  table_cell_warning_iff_stripped_dash "B" "ok" [[("k", "-5")]]
    [Slide.title "B - Analysis", Slide.bulletSlide "SUMMARY" ["ok"],
     Slide.tableSlide "DATA"
       [[headerCell "k"], [⟨"-5", false, some (255, 0, 0), none⟩]],
     Slide.closing "THANK YOU"]
    (by decide) _ (by decide)

/-- C6, counterexample: a response with the non-2xx status 304 whose
body carries an `access_token` still yields a token, because
`raise_for_status` only rejects statuses 400-599 — the claim's
"any non-2xx status raises" is false. -/
theorem token_success_on_redirect_status :
    get_bearer_token ⟨"id", "secret", "scope"⟩ none none none
        ⟨304, [("access_token", "tok")]⟩ =
      (.ok "tok", 1) ∧
    ¬(200 ≤ 304 ∧ 304 ≤ 299) := by decide

/-- C6, amended: `get_bearer_token` returns a token exactly when the
effective client secret (argument defaulted through Python `or` to the
configured value) is non-empty, the response status is not in 400-599,
and the body holds a non-empty `access_token`; an empty effective secret
raises the configuration error before any network call (zero calls). -/
theorem token_acquire_amended (cfg : TokenConfig) (cid cs sc : Option String)
    (resp : HttpResponse) :
    (pyOrStr cs cfg.clientSecret = "" →
      get_bearer_token cfg cid cs sc resp = (.error "CLIENT_SECRET not set", 0)) ∧
    (∀ t, (get_bearer_token cfg cid cs sc resp).1 = .ok t ↔
      (pyOrStr cs cfg.clientSecret ≠ "" ∧ ¬(400 ≤ resp.status ∧ resp.status < 600) ∧
        jsonGet resp "access_token" = some t ∧ t ≠ "")) := by
  constructor
  · intro h
    simp [get_bearer_token, h]
  · intro t
    unfold get_bearer_token raise_for_status
    by_cases hcs : pyOrStr cs cfg.clientSecret = ""
    · simp [hcs]
    · rw [if_neg hcs]
      by_cases hst : 400 ≤ resp.status ∧ resp.status < 600
      · rw [if_pos hst]
        simp [hcs, hst]
      · rw [if_neg hst]
        cases hj : jsonGet resp "access_token" with
        | none => simp [hcs, hst]
        | some t' =>
          dsimp only
          by_cases ht' : t' = ""
          · rw [if_pos ht']
            subst ht'
            simp [hcs, hst]
            exact fun h => h.symm
          · rw [if_neg ht']
            constructor
            · intro hok
              have htt : t' = t := by simpa using hok
              subst htt
              exact ⟨hcs, hst, rfl, ht'⟩
            · rintro ⟨-, -, hjt, -⟩
              have htt : t' = t := by simpa using hjt
              rw [htt]

/-- C6, witness: a 200 response with a non-empty token succeeds. -/
theorem token_acquire_amended_witness :
    (get_bearer_token ⟨"id", "sec", "sc"⟩ none none none
        ⟨200, [("access_token", "tok")]⟩).1 = .ok "tok" :=
  ((token_acquire_amended ⟨"id", "sec", "sc"⟩ none none none
      ⟨200, [("access_token", "tok")]⟩).2 "tok").mpr (by decide)

/-- C7: whenever deck generation succeeds and token acquisition fails,
the pipeline terminates with the 401 authentication error and the email
dispatcher is never invoked. -/
theorem pipeline_auth_failure_no_dispatch (b s : String) (d : List Row)
    (env : PipelineEnv) (e : String)
    (hgen : isOkE (create_pptx_buffer b s d) = true)
    (htok : env.tokenResult = .error e) :
    (generate_and_send b s d env).1 = .error (401, "Authentication failed: " ++ e) ∧
    (generate_and_send b s d env).2.emailCalls = 0 := by
  unfold generate_and_send
  cases hc : create_pptx_buffer b s d with
  | error m => rw [hc] at hgen; simp [isOkE] at hgen
  | ok sl => rw [htok]; exact ⟨rfl, rfl⟩

/-- C7, witness: a run whose identity endpoint failed with an HTTP 401
error. -/
theorem pipeline_auth_failure_no_dispatch_witness :
    (generate_and_send "B" "ok" [] ⟨.error "HTTP error 401", .ok 200⟩).1 =
      .error (401, "Authentication failed: " ++ "HTTP error 401") ∧
    (generate_and_send "B" "ok" [] ⟨.error "HTTP error 401", .ok 200⟩).2.emailCalls = 0 :=
  pipeline_auth_failure_no_dispatch "B" "ok" [] ⟨.error "HTTP error 401", .ok 200⟩
    "HTTP error 401" (by decide) rfl

/-- C9: the dispatcher's MIME resolution: the three office-document
extensions (after lower-casing the filename) map to their OOXML MIME
types regardless of the stdlib table `g`; outside the overrides the
stdlib guess is used, and an unresolved extension falls back to the
generic binary type. -/
theorem mime_resolution (g : String → Option String) (fn : String) :
    (splitextExt (pyLower fn) = ".xlsx" →
      guess_mime g fn = "application/vnd.openxmlformats-officedocument.spreadsheetml.sheet") ∧
    (splitextExt (pyLower fn) = ".pptx" →
      guess_mime g fn =
        "application/vnd.openxmlformats-officedocument.presentationml.presentation") ∧
    (splitextExt (pyLower fn) = ".docx" →
      guess_mime g fn = "application/vnd.openxmlformats-officedocument.wordprocessingml.document") ∧
    (MIME_OVERRIDES.find? (fun p => p.1 = splitextExt (pyLower fn)) = none →
      g fn = none → guess_mime g fn = "application/octet-stream") ∧
    (MIME_OVERRIDES.find? (fun p => p.1 = splitextExt (pyLower fn)) = none →
      ∀ t, g fn = some t → t ≠ "" → guess_mime g fn = t) := by
  refine ⟨?_, ?_, ?_, ?_, ?_⟩
  · intro h
    simp [guess_mime, h, MIME_OVERRIDES, List.find?]
  · intro h
    simp [guess_mime, h, MIME_OVERRIDES, List.find?]
  · intro h
    simp [guess_mime, h, MIME_OVERRIDES, List.find?]
  · intro hf hg
    simp [guess_mime, hf, hg, pyOrStr]
  · intro hf t hg ht
    simp [guess_mime, hf, hg, pyOrStr, ht]

/-- C9, witness: the theorem applied to an upper-case `.PPTX` name, an
unresolvable `.bin` name, and a name the stdlib table resolves. -/
theorem mime_resolution_witness :
    guess_mime (fun _ => none) "Deck.PPTX" =
      "application/vnd.openxmlformats-officedocument.presentationml.presentation" ∧
    guess_mime (fun _ => none) "data.bin" = "application/octet-stream" ∧
    guess_mime (fun _ => some "text/html") "page.html" = "text/html" :=
  ⟨(mime_resolution (fun _ => none) "Deck.PPTX").2.1 (by decide),
   (mime_resolution (fun _ => none) "data.bin").2.2.2.1 (by decide) rfl,
   (mime_resolution (fun _ => some "text/html") "page.html").2.2.2.2 (by decide)
     "text/html" rfl (by decide)⟩

/-- One step of the numbered-branch loop, phrased through `segBulletA`. -/
theorem numberedLoop_cons (p : List Char) (ps : List (List Char)) :
    numberedLoop (p :: ps) =
      match segBulletA p with
      | none => numberedLoop ps
      | some b => b :: numberedLoop ps := by
  simp only [numberedLoop, segBulletA]
  by_cases h1 : (pyStripL p).isEmpty
  · simp [h1]
  · by_cases h2 : (pyStripL (stripNumDot (pyStripL p))).isEmpty
    · simp [h1, h2]
    · simp [h1, h2]

/-- The numbered-branch loop is the segment-wise `filterMap`. -/
theorem numberedLoop_eq_filterMap (ps : List (List Char)) :
    numberedLoop ps = ps.filterMap segBulletA := by
  induction ps with
  | nil => rfl
  | cons p ps ih =>
    rw [numberedLoop_cons, List.filterMap_cons]
    cases segBulletA p with
    | none => exact ih
    | some b => rw [ih]

/-- A filter followed by a map is the corresponding `filterMap`. -/
theorem filter_map_eq_filterMap (p : α → Bool) (f : α → β) (xs : List α) :
    (xs.filter p).map f = xs.filterMap (fun a => if p a then some (f a) else none) := by
  induction xs with
  | nil => rfl
  | cons a xs ih =>
    rw [List.filter_cons, List.filterMap_cons]
    by_cases h : p a
    · simp [h, ih]
    · simp [h, ih]

/-- C3, counterexample: the input `"1.Foo 2. Bar"` contains a numbered
marker (`2. ` after a space), so the claim applies; the code strips the
bare `1.` (no following space) from the leading segment and returns
`["Foo", "Bar"]`, while the claimed literal `N. `-stripping leaves
`"1.Foo"` intact. -/
theorem numbered_marker_strip_not_literal :
    hasMarker (cleanOf "1.Foo 2. Bar") = true ∧
    parseSummary (some "1.Foo 2. Bar") = ["Foo", "Bar"] ∧
    parseSummaryClaimC3 "1.Foo 2. Bar" = ["1.Foo", "Bar"] ∧
    parseSummary (some "1.Foo 2. Bar") ≠ parseSummaryClaimC3 "1.Foo 2. Bar" := by decide

/-- C3, amended: every non-blank summary whose normalised text contains
a numbered marker is split at each marker; each segment is trimmed and
loses a leading `<digits>.` followed by any (possibly zero) whitespace —
so a leading segment such as `"1.Foo"` loses its `1.` as well — and
empty segments are discarded, preserving text order (with the sentinel
as fallback should no bullet survive). -/
theorem parse_summary_numbered_amended (s : String)
    (h1 : (pyStripL s.data).isEmpty = false)
    (h2 : hasMarker (cleanOf s) = true) :
    parseSummary (some s) =
      if (numberedBulletsA (cleanOf s)).isEmpty then noSummary
      else numberedBulletsA (cleanOf s) := by
  have h1' : ¬((pyStripL s.data).isEmpty = true) := by simp [h1]
  unfold parseSummary
  dsimp only
  simp only [Option.getD_some]
  rw [if_neg h1']
  rw [show pyStripL (collapseBlank (squeezeSpaces (pyStripL s.data))) = cleanOf s from rfl]
  rw [if_pos h2]
  rw [numberedLoop_eq_filterMap]
  unfold numberedBulletsA
  cases (splitMarkers (cleanOf s)).filterMap segBulletA with
  | nil => rfl
  | cons x xs => rfl

/-- C3, witness: the amended theorem at `"1. a 2. b"`. -/
theorem parse_summary_numbered_amended_witness :
    parseSummary (some "1. a 2. b") =
      if (numberedBulletsA (cleanOf "1. a 2. b")).isEmpty then noSummary
      else numberedBulletsA (cleanOf "1. a 2. b") :=
  parse_summary_numbered_amended "1. a 2. b" (by decide) (by decide)

/-- C8, counterexample: for the marker-free multi-line input
`"• Hello\nWorld"` the claim says the leading `•` glyph is stripped,
giving `["Hello", "World"]`; the code's strip set holds the mojibake
characters `â`, `€`, `¢` instead of `•`, so it returns
`["• Hello", "World"]`. -/
theorem line_glyph_strip_not_as_claimed :
    hasMarker (cleanOf "• Hello\nWorld") = false ∧
    (cleanOf "• Hello\nWorld").contains '\n' = true ∧
    parseSummary (some "• Hello\nWorld") = ["• Hello", "World"] ∧
    parseLinesClaimC8 (cleanOf "• Hello\nWorld") = ["Hello", "World"] ∧
    parseSummary (some "• Hello\nWorld") ≠ parseLinesClaimC8 (cleanOf "• Hello\nWorld") := by
  decide

/-- C8, amended: every non-blank, marker-free summary whose normalised
text contains a line break yields one bullet per line whose trim is
non-empty; each such line has the characters `-`, `â`, `€`, `¢` and
space removed from BOTH ends and is then whitespace-trimmed (the glyph
`•` itself is not stripped: the source's strip set holds the mojibake
encoding of `•`, not `•`). -/
theorem parse_summary_lines_amended (s : String)
    (h1 : (pyStripL s.data).isEmpty = false)
    (h2 : hasMarker (cleanOf s) = false)
    (h3 : (cleanOf s).contains '\n' = true) :
    parseSummary (some s) =
      if (lineBulletsA (cleanOf s)).isEmpty then noSummary
      else lineBulletsA (cleanOf s) := by
  have h1' : ¬((pyStripL s.data).isEmpty = true) := by simp [h1]
  have h2' : ¬(hasMarker (cleanOf s) = true) := by simp [h2]
  unfold parseSummary
  dsimp only
  simp only [Option.getD_some]
  rw [if_neg h1']
  rw [show pyStripL (collapseBlank (squeezeSpaces (pyStripL s.data))) = cleanOf s from rfl]
  rw [if_neg h2', if_pos h3]
  have hB : (((splitOnNl (cleanOf s)).filter (fun b => !(pyStripL b).isEmpty)).map
        (fun b => pyStripL (pyStripChars glyphStripSet b))).map (fun l => String.mk l) =
      lineBulletsA (cleanOf s) := by
    rw [List.map_map, filter_map_eq_filterMap]
    unfold lineBulletsA
    congr 1
    funext b
    by_cases hb : (pyStripL b).isEmpty
    · simp [hb]
    · simp [hb]
  rw [← hB]
  cases ((splitOnNl (cleanOf s)).filter (fun b => !(pyStripL b).isEmpty)).map
      (fun b => pyStripL (pyStripChars glyphStripSet b)) with
  | nil => rfl
  | cons x xs => rfl

/-- C8, witness: the amended theorem at `"- x\n- y"`. -/
theorem parse_summary_lines_amended_witness :
    parseSummary (some "- x\n- y") =
      if (lineBulletsA (cleanOf "- x\n- y")).isEmpty then noSummary
      else lineBulletsA (cleanOf "- x\n- y") :=
  parse_summary_lines_amended "- x\n- y" (by decide) (by decide) (by decide)

/-- Inserting a fresh key appends it. -/
theorem dictInsert_of_not_mem (d : List (String × α)) (k : String) (v : α)
    (h : (d.map Prod.fst).contains k = false) : dictInsert d k v = d ++ [(k, v)] := by
  unfold dictInsert
  rw [h]
  simp

/-- Building a Python dict from pairs with pairwise-distinct keys keeps
the pairs unchanged (generalised over the fold accumulator). -/
theorem pyDict_append_aux (ps : List (String × α)) :
    ∀ acc : List (String × α),
      (∀ k ∈ ps.map Prod.fst, k ∉ acc.map Prod.fst) →
      (ps.map Prod.fst).Nodup →
      ps.foldl (fun d kv => dictInsert d kv.1 kv.2) acc = acc ++ ps := by
  induction ps with
  | nil => intro acc _ _; simp
  | cons kv ps ih =>
    intro acc hdisj hnd
    rw [List.foldl_cons]
    have hk : (acc.map Prod.fst).contains kv.1 = false := by
      have hmem := hdisj kv.1 (by simp)
      simpa using hmem
    rw [dictInsert_of_not_mem _ _ _ hk]
    rw [List.map_cons, List.nodup_cons] at hnd
    have hstep := ih (acc ++ [kv]) ?_ hnd.2
    · rw [hstep]
      simp
    · intro k hkps
      simp only [List.map_append, List.map_cons, List.map_nil, List.mem_append,
        List.mem_singleton]
      rintro (hacc | hkv)
      · exact hdisj k (by simp [hkps]) hacc
      · exact hnd.1 (hkv ▸ hkps)

/-- A Python dict over pairwise-distinct keys is the pair list itself. -/
theorem pyDict_of_nodup (ps : List (String × α)) (h : (ps.map Prod.fst).Nodup) :
    pyDict ps = ps := by
  unfold pyDict
  simpa using pyDict_append_aux ps [] (by simp) h

/-- The keys of a zip are the header truncated to the row length. -/
theorem zip_map_fst_take (hs : List String) (r : List α) :
    (hs.zip r).map Prod.fst = hs.take r.length := by
  induction hs generalizing r with
  | nil => simp
  | cons h hs ih =>
    cases r with
    | nil => simp
    | cons a r => simp [ih]

/-- Looking up the j-th header in the zipped pairs gives the j-th row
value, provided the headers are pairwise distinct. -/
theorem dictGet_zip_of_lt (hs : List String) (r : List α) (hnd : hs.Nodup)
    (j : Nat) (hj1 : j < hs.length) (hj2 : j < r.length) :
    dictGet (hs.zip r) (hs.get ⟨j, hj1⟩) = some (r.get ⟨j, hj2⟩) := by
  induction hs generalizing r j with
  | nil => simp at hj1
  | cons h hs ih =>
    cases r with
    | nil => simp at hj2
    | cons a r =>
      rw [List.nodup_cons] at hnd
      cases j with
      | zero =>
        simp [dictGet, List.zip_cons_cons, List.find?]
      | succ j =>
        have hj1' : j < hs.length := Nat.lt_of_succ_lt_succ hj1
        have hj2' : j < r.length := Nat.lt_of_succ_lt_succ hj2
        have hne : h = (h :: hs).get ⟨j + 1, hj1⟩ → False := by
          intro he
          exact hnd.1 (he ▸ List.get_mem hs j hj1')
        rw [show ((h :: hs).get ⟨j + 1, hj1⟩) = hs.get ⟨j, hj1'⟩ from rfl,
            show ((a :: r).get ⟨j + 1, hj2⟩) = r.get ⟨j, hj2'⟩ from rfl] at *
        unfold dictGet
        rw [List.zip_cons_cons, List.find?_cons_of_neg]
        · exact ih r hnd.2 j hj1' hj2'
        · simpa using fun he => hne he

/-- Looking up a header whose index is beyond the row length finds
nothing (the zip dropped it), provided the headers are distinct. -/
theorem dictGet_zip_of_ge (hs : List String) (r : List α) (hnd : hs.Nodup)
    (j : Nat) (hj1 : j < hs.length) (hj2 : r.length ≤ j) :
    dictGet (hs.zip r) (hs.get ⟨j, hj1⟩) = none := by
  induction hs generalizing r j with
  | nil => simp at hj1
  | cons h hs ih =>
    cases r with
    | nil => simp [dictGet]
    | cons a r =>
      rw [List.nodup_cons] at hnd
      cases j with
      | zero => simp at hj2
      | succ j =>
        have hj1' : j < hs.length := Nat.lt_of_succ_lt_succ hj1
        have hj2' : r.length ≤ j := Nat.le_of_succ_le_succ hj2
        have hne : h = (h :: hs).get ⟨j + 1, hj1⟩ → False := by
          intro he
          exact hnd.1 (he ▸ List.get_mem hs j hj1')
        rw [show ((h :: hs).get ⟨j + 1, hj1⟩) = hs.get ⟨j, hj1'⟩ from rfl] at *
        unfold dictGet
        rw [List.zip_cons_cons, List.find?_cons_of_neg]
        · exact ih r hnd.2 j hj1' hj2'
        · simpa using fun he => hne he

/-- C10, counterexample: a duplicate header name breaks the claimed
mapping — with header `["a", "a"]` and row `[1, 2]` the produced object
holds `2` under `"a"`, so header index 0 is NOT mapped to row value 1 as
the claim requires for every `j < min`. -/
theorem convert_duplicate_header_collapses :
    convert_arrays (some ["a", "a"]) (some [[(1 : Nat), 2]]) = .ok [[("a", 2)]] ∧
    dictGet [("a", (2 : Nat))] "a" = some 2 ∧ (2 : Nat) ≠ 1 := by decide

/-- C10, amended: a missing or empty header or data list yields the 400
error and no conversion; for non-empty header and data with pairwise
distinct header names the response has exactly one object per row equal
to the zipped pairs, so header j maps to row value j for every
`j < min(|header|, |row|)` (surplus row values are dropped) and a header
beyond the row's length is absent from that object. -/
theorem convert_arrays_amended {α : Type} (header : Option (List String))
    (data : Option (List (List α))) (hs : List String) (rows : List (List α)) :
    ((header = none ∨ header = some [] ∨ data = none ∨ data = some []) →
      convert_arrays header data = .error (400, "Both header and data are required.")) ∧
    (hs ≠ [] → rows ≠ [] → hs.Nodup →
      convert_arrays (some hs) (some rows) = .ok (rows.map (fun r => hs.zip r)) ∧
      (∀ r ∈ rows, ∀ j, ∀ (hj1 : j < hs.length) (hj2 : j < r.length),
        dictGet (pyDict (hs.zip r)) (hs.get ⟨j, hj1⟩) = some (r.get ⟨j, hj2⟩)) ∧
      (∀ r ∈ rows, ∀ j, ∀ (hj1 : j < hs.length), r.length ≤ j →
        dictGet (pyDict (hs.zip r)) (hs.get ⟨j, hj1⟩) = none)) := by
  have hkeys : ∀ r : List α, hs.Nodup → ((hs.zip r).map Prod.fst).Nodup := by
    intro r hnd
    rw [zip_map_fst_take]
    exact hnd.sublist (List.take_sublist _ _)
  refine ⟨?_, ?_⟩
  · rintro (rfl | rfl | rfl | rfl) <;> simp [convert_arrays]
  · intro hhs hrows hnd
    have hhs' : hs.isEmpty = false := by
      cases hs with
      | nil => exact absurd rfl hhs
      | cons a l => rfl
    have hrows' : rows.isEmpty = false := by
      cases rows with
      | nil => exact absurd rfl hrows
      | cons a l => rfl
    refine ⟨?_, ?_, ?_⟩
    · unfold convert_arrays
      dsimp only
      rw [hhs', hrows']
      exact congrArg Except.ok
        (List.map_congr_left fun r _ => pyDict_of_nodup _ (hkeys r hnd))
    · intro r _ j hj1 hj2
      rw [pyDict_of_nodup _ (hkeys r hnd)]
      exact dictGet_zip_of_lt hs r hnd j hj1 hj2
    · intro r _ j hj1 hj2
      rw [pyDict_of_nodup _ (hkeys r hnd)]
      exact dictGet_zip_of_ge hs r hnd j hj1 hj2

/-- C10, witness: the amended theorem applied at an empty header, and at
header `["name", "age"]` with the single row `[25, 30]`. -/
theorem convert_arrays_amended_witness :
    convert_arrays (some ([] : List String)) (some [[(0 : Nat)]]) =
      .error (400, "Both header and data are required.") ∧
    convert_arrays (some ["name", "age"]) (some [[(25 : Nat), 30]]) =
      .ok ([[(25 : Nat), 30]].map (fun r => ["name", "age"].zip r)) ∧
    dictGet (pyDict (["name", "age"].zip [(25 : Nat), 30]))
        (["name", "age"].get ⟨0, by decide⟩) =
      some ([(25 : Nat), 30].get ⟨0, by decide⟩) :=
  ⟨(convert_arrays_amended (some ([] : List String)) (some [[(0 : Nat)]]) [] []).1
      (Or.inr (Or.inl rfl)),
   ((convert_arrays_amended none none ["name", "age"] [[(25 : Nat), 30]]).2
      (by decide) (by decide) (by decide)).1,
   (((convert_arrays_amended none none ["name", "age"] [[(25 : Nat), 30]]).2
      (by decide) (by decide) (by decide)).2.1 [(25 : Nat), 30] (by decide) 0
      (by decide) (by decide))⟩

end PPTEmail
